import Mathlib

/-!
Shallow embedding of `src/sunday1_ai_browser_agent/services/browser.py`
(class `BrowserController`): the action execution engine
(`execute_actions` / `_execute_single_action`), the element locator
(`_locate_element`), the scroll, wait and input handlers, the captcha
probe and `close()`.

External playwright calls (navigation, selector waits, screenshots, the
captcha marker query) are abstracted as oracles supplied in environment
records: their outcomes depend on the live page, which the engine does not
control. Engine-owned logic (control flow, dispatch, clamping, error
strings, reference clearing) is translated directly from the source.
-/

namespace Browser

/-- An action dict. The handlers read these keys; a missing `type`
defaults to `unknown` (browser.py line 104). -/
structure Action where
  type : String := "unknown"
  url : Option String := none
  text : Option String := none
  value : Option String := none
  selector : Option String := none
  element_description : Option String := none
  fallbacks : List String := []
  direction : Option String := none
  amount : Option Int := none
  timeout : Option Int := none
deriving DecidableEq

/-- The per-action result dict built by `_execute_single_action`
(lines 105-109). The `timestamp` field is omitted: no verified property
depends on it. -/
structure ActionResult where
  action : String
  success : Bool
  details : Option String := none
  screenshot : Option String := none
  error : Option String := none
deriving DecidableEq

/-- The aggregate results dict of `execute_actions` (lines 58-64). -/
structure ExecutionResult where
  success : Bool
  actions : List ActionResult
  screenshots : List String
  final_url : Option String := none
  duration : Int := 0
  status : Option String := none
  error : Option String := none
deriving DecidableEq

/-- Environment of one `execute_actions` run: the outcomes of the calls
into playwright.

* `pageAliveInit`: `self.page` is set and the page not closed at entry
  (line 67); the page is modelled as staying in that state for the whole
  run.
* `startError`: when `start()` has to run first, `some e` means it raised
  `e`; a failing `start()` tears the session down before re-raising, so
  the page is then dead.
* `act i`: outcome of the matched handler body for the action at index
  `i`. The handlers drive the live page, so their success or failure is
  environmental; the unsupported-type check stays concrete in
  `dispatchAction` below.
* `shotOk tag`: whether `page.screenshot` succeeds for a screenshot with
  that tag.
* `captcha`: truthiness of the `_check_captcha` marker query, i.e. of
  `page.query_selector("#captcha, .g-recaptcha, #recaptcha")` (line 259).
* `url`: `self.page.url` (line 86). -/
structure Env where
  pageAliveInit : Bool
  startError : Option String := none
  act : Nat → Except String String
  shotOk : String → Bool := fun _ => true
  captcha : Bool := false
  url : String := ""

/-- Whether the page is live during the run: it was live at entry, or
`start()` ran and succeeded. -/
def Env.pageOpen (env : Env) : Bool :=
  env.pageAliveInit || env.startError.isNone

/-- `_take_screenshot` (lines 251-255): saves under the screenshots
directory and returns the path. The `int(time.time())` filename suffix is
dropped: the tag already identifies every screenshot the properties speak
about. -/
def takeScreenshot (env : Env) (name : String) : Except String String :=
  if env.shotOk name then .ok ("screenshots/" ++ name ++ ".png")
  else .error ("screenshot failed: " ++ name)

/-- The `_handle_{type}` attributes that exist on `BrowserController`. -/
def handlerExists (t : String) : Bool :=
  ["navigate", "input", "click", "submit", "scroll", "wait"].contains t

/-- Handler dispatch inside `_execute_single_action` (lines 112-116): a
missing handler raises the unsupported-action error; the body of an
existing handler has the outcome the environment assigns to this index. -/
def dispatchAction (env : Env) (i : Nat) (a : Action) : Except String String :=
  if handlerExists a.type then env.act i
  else .error ("Unsupported action type: " ++ a.type)

/-- `_execute_single_action` (lines 102-132). On any failure the except
block logs, stores the error and a best-effort `failed_{type}` screenshot
into the local result dict, and then re-raises (line 130) - so that local
dict is discarded and the caller sees only the exception. On success,
while the page is open, an `action_{type}` screenshot is stored in the
returned result; a screenshot failure there goes through the same except
block and also re-raises. -/
def executeSingleAction (env : Env) (i : Nat) (a : Action) :
    Except String ActionResult :=
  match dispatchAction env i a with
  | .error e => .error e
  | .ok d =>
      if env.pageOpen then
        match takeScreenshot env ("action_" ++ a.type) with
        | .ok p =>
            .ok { action := a.type, success := true, details := some d,
                  screenshot := some p }
        | .error se => .error se
      else .ok { action := a.type, success := true, details := some d }

/-- The fields of the results dict that the for-loop mutates. -/
structure LoopState where
  acts : List ActionResult
  shots : List String
  success : Bool
  status : Option String
deriving DecidableEq

/-- The results dict as initialised at lines 58-64. -/
def initState : LoopState :=
  { acts := [], shots := [], success := true, status := none }

/-- How the for-loop exits: `done` on normal exit or `break`; `raised`
when an exception escaped the loop body (the results mutated so far
survive in the dict and are seen by the except block). -/
inductive LoopOut where
  | done : LoopState → LoopOut
  | raised : LoopState → String → LoopOut
deriving DecidableEq

/-- The for-loop of `execute_actions` (lines 70-83): humanised delay, run
the action, append its result; if the result is not successful, mark the
run failed, probe the captcha markers, and break; otherwise take a
`step_{len}` screenshot while the page is open and continue. -/
def execLoop (env : Env) (i : Nat) (st : LoopState) : List Action → LoopOut
  | [] => .done st
  | a :: rest =>
    match executeSingleAction env i a with
    | .error e => .raised st e
    | .ok r =>
      let st1 : LoopState := { st with acts := st.acts ++ [r] }
      if !r.success then
        .done { st1 with
                success := false
                status := if env.captcha then some "captcha_required" else st1.status }
      else
        if env.pageOpen then
          match takeScreenshot env ("step_" ++ toString st1.acts.length) with
          | .ok p => execLoop env (i + 1) { st1 with shots := st1.shots ++ [p] } rest
          | .error se => .raised st1 se
        else execLoop env (i + 1) st1 rest

/-- Ensure-session plus loop (lines 66-83): when the page is missing or
closed, `start()` runs first, and a failure there is an exception inside
the try block. -/
def runLoop (env : Env) (actions : List Action) : LoopOut :=
  if env.pageAliveInit then execLoop env 0 initState actions
  else
    match env.startError with
    | some e => .raised initState e
    | none => execLoop env 0 initState actions

/-- Tail of `execute_actions` (lines 85-100): on normal exit record the
final url while the page is open; on an exception mark the run failed,
record the error, and attempt one `error_final` screenshot - that last
screenshot call sits inside the except block with no guard of its own, so
its failure escapes the whole call. The duration (line 99) is written on
both returning paths from `self.start_time`. -/
def finishRun (env : Env) (start_time now : Int) (out : LoopOut) :
    Except String ExecutionResult :=
  match out with
  | .done st =>
      .ok { success := st.success, actions := st.acts, screenshots := st.shots,
            final_url := if env.pageOpen then some env.url else none,
            status := st.status, error := none, duration := now - start_time }
  | .raised st e =>
      if env.pageOpen then
        match takeScreenshot env "error_final" with
        | .ok p =>
            .ok { success := false, actions := st.acts,
                  screenshots := st.shots ++ [p], final_url := none,
                  status := some "failed", error := some e,
                  duration := now - start_time }
        | .error se => .error se
      else
        .ok { success := false, actions := st.acts, screenshots := st.shots,
              final_url := none, status := some "failed", error := some e,
              duration := now - start_time }

/-- `execute_actions` (lines 56-100). `start_time` is `self.start_time`,
set once at construction (line 24); `now` is `time.time()` at line 99.
Time is modelled in whole units, so `round(x, 2)` is the identity. -/
def executeActions (env : Env) (start_time now : Int) (actions : List Action) :
    Except String ExecutionResult :=
  finishRun env start_time now (runLoop env actions)

/-- DOM oracle: `find sel` is the element (named by an id string) that
`page.wait_for_selector(sel, state="attached")` resolves, or `none` when
the wait times out or yields nothing. The per-call timeout values are
absorbed into the verdict of the oracle. -/
structure Dom where
  find : String → Option String

/-- A single-quote character, for the quoted selector templates and error
strings below. -/
def sq : String := "\x27"

/-- The heuristic selector templates built from `element_description`
(lines 207-213), in source order. -/
def descStrategies (d : String) : List String :=
  [ "text=" ++ d ++ " >> visible=true",
    "[aria-label=" ++ sq ++ d ++ sq ++ "] >> visible=true",
    "[placeholder=" ++ sq ++ d ++ sq ++ "] >> visible=true",
    "text=" ++ d,
    ":has-text(" ++ sq ++ d ++ sq ++ ")" ]

/-- The strategy list walked by the locator loop: the description
templates, then the caller-supplied fallbacks (lines 205-216). -/
def strategiesOf (a : Action) : List String :=
  (match a.element_description with
   | some d => descStrategies d
   | none => []) ++ a.fallbacks

/-- The try/except loop over strategies (lines 219-229): every failure is
swallowed and the next candidate tried; the first resolving element wins. -/
def tryStrategies (dom : Dom) : List String → Option String
  | [] => none
  | s :: rest =>
    match dom.find s with
    | some el => some el
    | none => tryStrategies dom rest

/-- The rendering of the action that line 231 interpolates into the
element-not-found message. -/
def actionRepr (a : Action) : String :=
  a.type ++ "/" ++ a.selector.getD "-" ++ "/" ++ a.element_description.getD "-"
    ++ "/" ++ String.intercalate "," a.fallbacks

/-- `_locate_element` (lines 192-231). An explicit selector is waited for
and returned directly (line 198): a timeout there propagates and no other
strategy is tried. Otherwise the strategy list is walked with failures
swallowed, and exhaustion raises the element-not-found error carrying the
action. -/
def locateElement (dom : Dom) (a : Action) : Except String String :=
  match a.selector with
  | some sel =>
      match dom.find sel with
      | some el => .ok el
      | none => .error ("Timeout waiting for selector: " ++ sel)
  | none =>
      match tryStrategies dom (strategiesOf a) with
      | some el => .ok el
      | none => .error ("Element not found using any strategy: " ++ actionRepr a)

/-- Result of `_handle_scroll`, together with the wheel delta actually
passed to `page.mouse.wheel`. -/
structure ScrollOutcome where
  direction : String
  pixels : Int
  wheelDelta : Int
deriving DecidableEq

/-- `_handle_scroll` (lines 168-179): the amount defaults to 500 and is
clamped into [100, 2000] before the wheel call; scrolling up negates it. -/
def handleScroll (a : Action) : ScrollOutcome :=
  let direction := a.direction.getD "down"
  let amount : Int := max 100 (min 2000 (a.amount.getD 500))
  { direction := direction, pixels := amount,
    wheelDelta := if direction = "down" then amount else -amount }

/-- Result of `_handle_wait`, together with the milliseconds actually
slept when no selector is given. -/
structure WaitOutcome where
  wait_for : String
  selector : Option String := none
  ms : Option Int := none
  sleptMs : Option Int := none
deriving DecidableEq

/-- `_handle_wait` (lines 181-190): the timeout defaults to 5000 and is
clamped into [1000, 10000]; with a selector the handler waits for its
attachment (outcome from the DOM oracle), otherwise it sleeps
`timeout / 1000` seconds, i.e. exactly the clamped milliseconds. -/
def handleWait (dom : Dom) (a : Action) : Except String WaitOutcome :=
  let timeout : Int := max 1000 (min 10000 (a.timeout.getD 5000))
  match a.selector with
  | some sel =>
      match dom.find sel with
      | some _ => .ok { wait_for := "selector", selector := some sel }
      | none => .error ("Timeout waiting for selector: " ++ sel)
  | none => .ok { wait_for := "timeout", ms := some timeout, sleptMs := some timeout }

/-- Python `x or y` on two optional strings: `None` and the empty string
are both falsy. -/
def pyOr (x y : Option String) : Option String :=
  match x with
  | some t => if t = "" then y else some t
  | none => y

/-- The reported text, truncated as at line 153. -/
def truncateText (t : String) : String :=
  if t.length > 50 then t.take 50 ++ "..." else t

/-- The error message of line 147. -/
def inputErr : String :=
  "Input action requires " ++ sq ++ "text" ++ sq ++ " or " ++ sq ++ "value" ++ sq

/-- Result of `_handle_input`, together with the text `_human_type` typed
character by character. -/
structure InputOutcome where
  element : Option String
  text : String
  typed : String
deriving DecidableEq

/-- `_handle_input` (lines 143-154): `action.get("text") or
action.get("value")` with Python falsiness, so a missing and an empty
string alike raise the requires-text error; then the target is located
and the text typed. -/
def handleInput (dom : Dom) (a : Action) : Except String InputOutcome :=
  match pyOr a.text a.value with
  | none => .error inputErr
  | some t =>
      if t = "" then .error inputErr
      else
        match locateElement dom a with
        | .error e => .error e
        | .ok _ =>
            .ok { element := pyOr a.selector a.element_description,
                  text := truncateText t, typed := t }

/-- The session references held by the controller; `page` is
`some isClosed` when a page object is held. `hasattr` is always true
after `__init__`, so it is not modelled. -/
structure Session where
  page : Option Bool := none
  context : Option Unit := none
  browser : Option Unit := none
  playwright : Option Unit := none
deriving DecidableEq

/-- Which of the four release calls would raise. -/
structure CloseEnv where
  pageCloseFails : Bool := false
  contextCloseFails : Bool := false
  browserCloseFails : Bool := false
  playwrightStopFails : Bool := false

/-- The page guard of line 264: a page object is held and not closed. -/
def pageLive (s : Session) : Bool :=
  match s.page with
  | some closed => !closed
  | none => false

/-- One guarded release statement inside the single try block of
`close()`: once an earlier call has raised, the remaining statements of
the block are skipped (the exception travels to the shared except). -/
def closeStep (acc : List String × Option String) (guard : Bool)
    (name : String) (fails : Bool) : List String × Option String :=
  match acc with
  | (calls, some e) => (calls, some e)
  | (calls, none) =>
      if guard then (calls ++ [name], if fails then some (name ++ " failed") else none)
      else (calls, none)

/-- The try block of `close()` (lines 263-272): page, context, browser,
driver handle, in order, every release behind its own presence guard but
all under one shared except. Returns the release calls attempted, in
order, and the error the except block caught, if any. -/
def closeTryBlock (env : CloseEnv) (s : Session) : List String × Option String :=
  closeStep (closeStep (closeStep (closeStep ([], none)
    (pageLive s) "page.close" env.pageCloseFails)
    s.context.isSome "context.close" env.contextCloseFails)
    s.browser.isSome "browser.close" env.browserCloseFails)
    s.playwright.isSome "playwright.stop" env.playwrightStopFails

/-- The state the finally block leaves behind: all references null. -/
def clearedSession : Session :=
  { page := none, context := none, browser := none, playwright := none }

/-- `close()` (lines 261-279): the except block swallows whatever the try
block raised, and the finally block nulls all four references. Returns
the cleared state and the release calls that were attempted, in order. -/
def close (env : CloseEnv) (s : Session) : Session × List String :=
  (clearedSession, (closeTryBlock env s).1)

/-- Path of an `action_{type}` screenshot as saved by the engine. -/
def actionShot (t : String) : String :=
  "screenshots/" ++ ("action_" ++ t) ++ ".png"

/-- Path of a `step_{k}` screenshot as saved by the engine. -/
def stepShot (k : Nat) : String :=
  "screenshots/" ++ ("step_" ++ toString k) ++ ".png"

/-- Path of the `error_final` screenshot as saved by the engine. -/
def errorShot : String :=
  "screenshots/" ++ "error_final" ++ ".png"

/-- Boolean view of an `Except` being a success. -/
def isOkB : Except String String → Bool
  | .ok _ => true
  | .error _ => false

/-- Invariant of the loop state under an open page and reliable
screenshots: every recorded action result is successful and carries its
action-tagged screenshot, and the run screenshots are exactly the step
screenshots 1..n for the n recorded actions. -/
def goodState (st : LoopState) : Prop :=
  (∀ (i : Nat) (ar : ActionResult), st.acts[i]? = some ar →
     ar.success = true ∧ ar.screenshot = some (actionShot ar.action)) ∧
  st.shots = (List.range st.acts.length).map (fun k => stepShot (k + 1))

/-- The duration the specification describes. Modelled from the spec: the
time elapsed from the start of the `execute_actions` call (`callStart`)
to its end (`now`); the source has no variable recording `callStart`. -/
def specClaimedDuration (callStart now : Int) : Int :=
  now - callStart

/-- Run environment: live page, every handler body succeeds, screenshots
succeed, no captcha marker in the DOM. -/
def envC1 : Env :=
  { pageAliveInit := true, act := fun _ => .ok "done" }

/-- The result of running [submit, hover] under `envC1`: the second
action has no handler, its failure re-raises, and the discarded failed
result leaves only one (successful) entry behind. -/
def resC1 : ExecutionResult :=
  { success := false,
    actions := [{ action := "submit", success := true, details := some "done",
                  screenshot := some (actionShot "submit") }],
    screenshots := [stepShot 1, errorShot],
    final_url := none, status := some "failed",
    error := some "Unsupported action type: hover", duration := 5 }

/-- Run environment: live page, handlers succeed, screenshots succeed. -/
def envC2 : Env :=
  { pageAliveInit := true, act := fun _ => .ok "done" }

/-- The result of running the single unsupported action under `envC2`. -/
def resC2 : ExecutionResult :=
  { success := false, actions := [], screenshots := [errorShot],
    final_url := none, status := some "failed",
    error := some "Unsupported action type: hover", duration := 3 }

/-- The result of running zero actions under `envC2`. -/
def resC2e : ExecutionResult :=
  { success := true, actions := [], screenshots := [], final_url := some "",
    status := none, error := none, duration := 3 }

/-- Run environment: live page, captcha marker present in the DOM, and
the click handler fails (element not found). -/
def envC3 : Env :=
  { pageAliveInit := true,
    act := fun _ => .error "Element not found using any strategy: click target",
    captcha := true }

/-- The result of the failed click under `envC3`: status is `failed`,
the captcha probe is never reached. -/
def resC3 : ExecutionResult :=
  { success := false, actions := [], screenshots := [errorShot],
    final_url := none, status := some "failed",
    error := some "Element not found using any strategy: click target",
    duration := 2 }

/-- DOM with `#b` present and everything else (in particular `#x` and
`#a`) absent. -/
def domC4 : Dom :=
  { find := fun s => if s == "#b" then some "elB" else none }

/-- An action with an explicit selector that is absent, plus fallbacks of
which the second is present. -/
def actC4 : Action :=
  { type := "click", selector := some "#x", fallbacks := ["#a", "#b"] }

/-- DOM for the fallback-order witness: only `#b` is present. -/
def domC4w : Dom :=
  { find := fun s => if s == "#b" then some "elB" else none }

/-- Run environment in which the `error_final` screenshot itself fails
while the page is open and the single click action fails. -/
def envC5 : Env :=
  { pageAliveInit := true, act := fun _ => .error "click failed",
    shotOk := fun t => !(t == "error_final") }

/-- Run environment for the boundary witness: live page, failing click,
all screenshots succeed. -/
def envC5w : Env :=
  { pageAliveInit := true, act := fun _ => .error "click failed" }

/-- DOM used by the clamping witness; never consulted on the no-selector
path. -/
def domC6w : Dom :=
  { find := fun _ => none }

/-- A session with all four resources held and the page not closed. -/
def sessC7 : Session :=
  { page := some false, context := some (), browser := some (),
    playwright := some () }

/-- Close environment where releasing the page raises. -/
def envC7f : CloseEnv :=
  { pageCloseFails := true }

/-- Close environment where every release succeeds. -/
def envC7w : CloseEnv := {}

/-- Run environment for the duration evaluation: live page, handlers
succeed. -/
def envC8 : Env :=
  { pageAliveInit := true, act := fun _ => .ok "done" }

/-- The result of running zero actions under `envC8` with construction
time 0 and end time 12. -/
def resC8 : ExecutionResult :=
  { success := true, actions := [], screenshots := [], final_url := some "",
    status := none, error := none, duration := 12 }

/-- Run environment for the duration witness. -/
def envC8w : Env :=
  { pageAliveInit := true, act := fun _ => .ok "done" }

/-- The result of running zero actions under `envC8w` with construction
time 0 and end time 7. -/
def resC8w : ExecutionResult :=
  { success := true, actions := [], screenshots := [], final_url := some "",
    status := none, error := none, duration := 7 }

/-- DOM used by the empty-input witness. -/
def domC9w : Dom :=
  { find := fun _ => none }

/-- Run environment for the screenshot-policy witness: live page, the
submit handler succeeds, screenshots succeed. -/
def envC10w : Env :=
  { pageAliveInit := true, act := fun _ => .ok "done" }

/-- The result of running one submit action under `envC10w`. -/
def resC10w : ExecutionResult :=
  { success := true,
    actions := [{ action := "submit", success := true, details := some "done",
                  screenshot := some (actionShot "submit") }],
    screenshots := [stepShot 1], final_url := some "",
    status := none, error := none, duration := 1 }

/-- C1. In the action list [submit, hover] the action at index 1 fails
(submit succeeded before it), yet the returned ActionResults list has
exactly 1 entry - the successful submit - instead of the 2 entries with a
failed last entry that the claim requires: the failed result built by
`_execute_single_action` is discarded because its except block re-raises,
so the append/break branch of the loop never sees it. -/
theorem c1_failed_result_not_appended :
    executeActions envC1 0 5 [{ type := "submit" }, { type := "hover" }] = .ok resC1 ∧
    resC1.actions.length = 1 ∧
    resC1.success = false ∧
    (resC1.actions.all fun ar => ar.success) = true := by
  exact ⟨rfl, rfl, rfl, rfl⟩

/-- C2. Overall success is not equivalent to all recorded ActionResults
being successful: under `envC2` the single unsupported action yields an
empty ActionResults list (vacuously all successful) while
ExecutionResult.success is false. The zero-action part of the claim does
hold: an empty list returns success true with empty lists. -/
theorem c2_success_iff_violated :
    executeActions envC2 0 3 [{ type := "hover" }] = .ok resC2 ∧
    (resC2.actions.all fun ar => ar.success) = true ∧
    resC2.success = false ∧
    executeActions envC2 0 3 [] = .ok resC2e ∧
    resC2e.success = true ∧
    resC2e.actions = [] ∧
    resC2e.screenshots = [] := by
  exact ⟨rfl, rfl, rfl, rfl, rfl, rfl, rfl⟩

/-- C3. A click fails while the captcha marker query is truthy, yet the
returned status is `failed`, not `captcha_required`: the captcha probe at
lines 77-78 sits in the unreachable non-success branch of the loop,
because every handler failure re-raises past it. -/
theorem c3_captcha_status_never_set :
    envC3.captcha = true ∧
    executeActions envC3 0 2 [{ type := "click" }] = .ok resC3 ∧
    resC3.success = false ∧
    resC3.status = some "failed" ∧
    decide (resC3.status = some "captcha_required") = false := by
  exact ⟨rfl, rfl, rfl, rfl, rfl⟩

/-- C4 counterexample. With an explicit selector `#x` that is absent and
fallbacks [`#a`, `#b`] of which `#b` is present, the locator does not
swallow the failure of the selector strategy and move on: it raises the
selector-wait timeout immediately, never returning the `#b` element and
never reaching the element-not-found error. -/
theorem c4_selector_failure_not_swallowed :
    domC4.find "#b" = some "elB" ∧
    locateElement domC4 actC4 = .error ("Timeout waiting for selector: #x") ∧
    isOkB (locateElement domC4 actC4) = false := by
  exact ⟨rfl, rfl, rfl⟩

/-- C5 counterexample. An engine-level exception (a failed click) with
the page open and a failing `error_final` screenshot makes
`execute_actions` raise past its own boundary instead of returning a
failed ExecutionResult: the screenshot call inside the except block is
unguarded. -/
theorem c5_error_final_screenshot_escapes :
    executeActions envC5 0 4 [{ type := "click" }] =
      .error "screenshot failed: error_final" := by
  exact rfl

/-- C7 counterexample. All four resources are held, releasing the page
raises, and then context, browser and driver releases are never
attempted: the four releases share a single try block, refuting that each
release is guarded so a failure in one does not prevent attempting the
next. The references are still cleared. -/
theorem c7_single_guard_skips_rest :
    sessC7.context.isSome = true ∧
    close envC7f sessC7 = (clearedSession, ["page.close"]) := by
  exact ⟨rfl, rfl⟩

/-- C8 counterexample. With the controller constructed at time 0 and an
`execute_actions` call that starts at time 10 and ends at time 12, the
recorded duration is 12 - the elapsed time since construction - and not
the 2 units the call itself lasted (the claimed duration for callStart 10
and end 12): `self.start_time` is set once in `__init__` and never reset
per call. -/
theorem c8_duration_counted_from_construction :
    executeActions envC8 0 12 [] = .ok resC8 ∧
    resC8.duration = 12 ∧
    decide (resC8.duration = specClaimedDuration 10 12) = false := by
  exact ⟨rfl, rfl, rfl⟩

/-- Strategies that all fail are skipped by the locator loop. -/
theorem tryStrategies_append_of_none (dom : Dom) (pre l : List String)
    (h : ∀ t ∈ pre, dom.find t = none) :
    tryStrategies dom (pre ++ l) = tryStrategies dom l := by
  induction pre with
  | nil => rfl
  | cons p ps ih =>
      have hp : dom.find p = none := h p (List.mem_cons_self p ps)
      have hrest : ∀ t ∈ ps, dom.find t = none :=
        fun t ht => h t (List.mem_cons_of_mem p ht)
      simp only [List.cons_append, tryStrategies, hp]
      exact ih hrest

/-- A strategy list in which every candidate fails resolves nothing. -/
theorem tryStrategies_eq_none (dom : Dom) (l : List String)
    (h : ∀ t ∈ l, dom.find t = none) :
    tryStrategies dom l = none := by
  induction l with
  | nil => rfl
  | cons p ps ih =>
      have hp : dom.find p = none := h p (List.mem_cons_self p ps)
      simp only [tryStrategies, hp]
      exact ih fun t ht => h t (List.mem_cons_of_mem p ht)

/-- C4, amended. For an action without an explicit selector, the locator
walks the strategy list (description-derived templates, then fallbacks)
in order: every failing candidate is swallowed, the first candidate that
resolves is returned, and only when all candidates fail does the locator
raise the element-not-found error carrying the action. (With an explicit
selector the locator instead waits for that selector alone and lets its
failure propagate - see the counterexample.) -/
theorem c4_locator_order_without_selector (dom : Dom) (a : Action)
    (hsel : a.selector = none) :
    (∀ (pre post : List String) (s el : String),
        strategiesOf a = pre ++ s :: post →
        (∀ t ∈ pre, dom.find t = none) →
        dom.find s = some el →
        locateElement dom a = .ok el) ∧
    ((∀ t ∈ strategiesOf a, dom.find t = none) →
        locateElement dom a =
          .error ("Element not found using any strategy: " ++ actionRepr a)) := by
  constructor
  · intro pre post s el hsplit hpre hs
    unfold locateElement
    rw [hsel, hsplit, tryStrategies_append_of_none dom pre (s :: post) hpre]
    simp only [tryStrategies, hs]
  · intro hall
    unfold locateElement
    rw [hsel, tryStrategies_eq_none dom (strategiesOf a) hall]

/-- Witness for the locator-order theorem: with only fallbacks
[`#a`, `#b`], `#a` absent and `#b` present, the locator returns the
element matching `#b`. -/
theorem c4_locator_order_without_selector_witness :
    locateElement domC4w { type := "click", fallbacks := ["#a", "#b"] } = .ok "elB" := by
  refine (c4_locator_order_without_selector domC4w
    { type := "click", fallbacks := ["#a", "#b"] } rfl).1 ["#a"] [] "#b" "elB" rfl ?_ rfl
  intro t ht
  rw [List.mem_singleton] at ht
  subst ht
  rfl

/-- C6. The scroll amount (default 500) is clamped into [100, 2000]
before being passed to the wheel, and the clamped value is what the
result reports; a wait without a selector sleeps exactly the clamped
timeout (default 5000, clamped into [1000, 10000]). -/
theorem c6_scroll_wait_clamped (dom : Dom) (a w : Action)
    (hw : w.selector = none) :
    (handleScroll a).pixels = max 100 (min 2000 (a.amount.getD 500)) ∧
    100 ≤ (handleScroll a).pixels ∧
    (handleScroll a).pixels ≤ 2000 ∧
    (handleScroll a).wheelDelta =
      (if (handleScroll a).direction = "down" then (handleScroll a).pixels
       else -(handleScroll a).pixels) ∧
    handleWait dom w =
      .ok { wait_for := "timeout", selector := none,
            ms := some (max 1000 (min 10000 (w.timeout.getD 5000))),
            sleptMs := some (max 1000 (min 10000 (w.timeout.getD 5000))) } ∧
    1000 ≤ max 1000 (min 10000 (w.timeout.getD 5000)) ∧
    max 1000 (min 10000 (w.timeout.getD 5000)) ≤ 10000 := by
  refine ⟨rfl, le_max_left 100 _, ?_, rfl, ?_, le_max_left 1000 _, ?_⟩
  · exact max_le (by norm_num) (min_le_left _ _)
  · unfold handleWait
    rw [hw]
  · exact max_le (by norm_num) (min_le_left _ _)

/-- Witness for the clamping theorem at the boundary inputs of the claim:
scroll amount 5000 is applied as 2000 pixels and a selector-less wait
with timeout 50000 sleeps 10000 ms. -/
theorem c6_scroll_wait_clamped_witness :
    (handleScroll { type := "scroll", amount := some 5000 }).pixels = 2000 ∧
    handleWait domC6w { type := "wait", timeout := some 50000 } =
      .ok { wait_for := "timeout", selector := none,
            ms := some 10000, sleptMs := some 10000 } := by
  have h := c6_scroll_wait_clamped domC6w { type := "scroll", amount := some 5000 }
    { type := "wait", timeout := some 50000 } rfl
  exact ⟨h.1.trans (by decide), (h.2.2.2.2.1).trans (congrArg Except.ok (by decide))⟩

/-- C9. An input action whose text-or-value lookup is falsy - the text
field present but empty, with no non-empty value to fall back to - fails
with the requires-text error, and whenever the handler succeeds the text
it typed is non-empty: typing an empty string is impossible. -/
theorem c9_empty_text_rejected (dom : Dom) (a b : Action)
    (ht : a.text = some "") (hv : a.value = none ∨ a.value = some "") :
    handleInput dom a = .error inputErr ∧
    (∀ d : InputOutcome, handleInput dom b = .ok d → ¬(d.typed = "")) := by
  constructor
  · rcases hv with hv | hv <;> simp [handleInput, pyOr, ht, hv]
  · intro d hd
    unfold handleInput at hd
    rcases hpv : pyOr b.text b.value with _ | t <;> rw [hpv] at hd
    · simp at hd
    · dsimp only [] at hd
      by_cases h0 : t = ""
      · rw [if_pos h0] at hd
        simp at hd
      · rw [if_neg h0] at hd
        rcases hloc : locateElement dom b with e | el <;> rw [hloc] at hd
        · simp at hd
        · have htyped : d.typed = t := by
            injection hd with h2
            rw [← h2]
          intro hdd
          exact h0 (htyped.symm.trans hdd)

/-- Witness: the input action with `text` present but equal to the empty
string fails with the requires-text error. -/
theorem c9_empty_text_rejected_witness :
    handleInput domC9w { type := "input", text := some "" } = .error inputErr :=
  (c9_empty_text_rejected domC9w { type := "input", text := some "" }
    { type := "input", text := some "" } rfl (Or.inl rfl)).1

/-- C5, amended. Whenever the page is dead or the `error_final`
screenshot can be taken, `execute_actions` returns a result instead of
raising, and any result carrying a recorded error is marked unsuccessful
with status `failed`. (Without that proviso the call can raise: the
`error_final` screenshot inside the except block is unguarded - see the
counterexample - and a screenshot failure on the success path aborts the
run rather than being swallowed.) -/
theorem c5_boundary_conversion (env : Env) (s n : Int) (acts : List Action)
    (h : env.pageOpen = false ∨ env.shotOk "error_final" = true) :
    ∃ r : ExecutionResult,
      executeActions env s n acts = .ok r ∧
      (∀ e : String, r.error = some e → r.success = false ∧ r.status = some "failed") := by
  unfold executeActions
  cases hout : runLoop env acts with
  | done st =>
      refine ⟨{ success := st.success, actions := st.acts, screenshots := st.shots,
                final_url := if env.pageOpen then some env.url else none,
                status := st.status, error := none, duration := n - s }, rfl, ?_⟩
      intro e he
      simp at he
  | raised st e =>
      by_cases hp : env.pageOpen = true
      · have hs : env.shotOk "error_final" = true := by
          rcases h with h | h
          · rw [hp] at h
            cases h
          · exact h
        have hts : takeScreenshot env "error_final" = .ok errorShot := by
          unfold takeScreenshot
          rw [hs]
          rfl
        refine ⟨{ success := false, actions := st.acts,
                  screenshots := st.shots ++ [errorShot], final_url := none,
                  status := some "failed", error := some e,
                  duration := n - s }, ?_, ?_⟩
        · unfold finishRun
          rw [hp, hts]
          simp
        · intro e2 he2
          exact ⟨rfl, rfl⟩
      · have hp2 : env.pageOpen = false := by
          cases hpv : env.pageOpen
          · rfl
          · exact absurd hpv hp
        refine ⟨{ success := false, actions := st.acts, screenshots := st.shots,
                  final_url := none, status := some "failed", error := some e,
                  duration := n - s }, ?_, ?_⟩
        · unfold finishRun
          rw [hp2]
          simp
        · intro e2 he2
          exact ⟨rfl, rfl⟩

/-- Witness: a failing click under a live page with working screenshots
yields a returned (not raised) result, and its recorded error comes with
success false and status `failed`. -/
theorem c5_boundary_conversion_witness :
    ∃ r : ExecutionResult,
      executeActions envC5w 0 4 [{ type := "click" }] = .ok r ∧
      (∀ e : String, r.error = some e → r.success = false ∧ r.status = some "failed") :=
  c5_boundary_conversion envC5w 0 4 [{ type := "click" }] (Or.inr rfl)

/-- C7, amended. `close()` never raises, always resets all four
references to null on exit, and is idempotent - a second call attempts no
release and leaves the cleared state. The releases run in the order page,
context, browser, driver handle, each behind its own presence guard, but
under a single shared try: when every release succeeds all held resources
are released in order, while a failure releasing one resource (here the
page) skips the remaining releases instead of attempting them. -/
theorem c7_close_idempotent_single_guard (env : CloseEnv) (s : Session) :
    (close env s).1 = clearedSession ∧
    close env (close env s).1 = (clearedSession, []) ∧
    (env.pageCloseFails = false → env.contextCloseFails = false →
      env.browserCloseFails = false →
      (close env s).2 =
        (if pageLive s then ["page.close"] else []) ++
        (if s.context.isSome then ["context.close"] else []) ++
        (if s.browser.isSome then ["browser.close"] else []) ++
        (if s.playwright.isSome then ["playwright.stop"] else [])) ∧
    (pageLive s = true → env.pageCloseFails = true →
      (close env s).2 = ["page.close"]) := by
  refine ⟨rfl, rfl, ?_, ?_⟩
  · intro h1 h2 h3
    cases hp : pageLive s <;> cases hc : s.context.isSome <;>
      cases hb : s.browser.isSome <;> cases hw : s.playwright.isSome <;>
      simp [close, closeTryBlock, closeStep, hp, hc, hb, hw, h1, h2, h3]
  · intro hp hf
    simp [close, closeTryBlock, closeStep, hp, hf]

/-- Witness: with all four resources held and no release failing, the
calls run in the full order page, context, browser, driver. -/
theorem c7_close_idempotent_single_guard_witness :
    (close envC7w sessC7).2 =
      ["page.close", "context.close", "browser.close", "playwright.stop"] :=
  ((c7_close_idempotent_single_guard envC7w sessC7).2.2.1 rfl rfl rfl).trans (by decide)

/-- C8, amended. The duration recorded in any returned ExecutionResult
equals the time elapsed from the construction of the controller
(`self.start_time`, set in `__init__`) to the end of the
`execute_actions` call - not from the start of that call. -/
theorem c8_duration_since_construction (env : Env) (s n : Int)
    (acts : List Action) (r : ExecutionResult)
    (h : executeActions env s n acts = .ok r) :
    r.duration = n - s := by
  unfold executeActions at h
  cases hout : runLoop env acts with
  | done st =>
      rw [hout] at h
      unfold finishRun at h
      injection h with h2
      rw [← h2]
  | raised st e =>
      rw [hout] at h
      unfold finishRun at h
      by_cases hp : env.pageOpen = true
      · rw [hp] at h
        simp only [if_true] at h
        cases hts : takeScreenshot env "error_final" with
        | ok p =>
            rw [hts] at h
            injection h with h2
            rw [← h2]
        | error se =>
            rw [hts] at h
            cases h
      · have hp2 : env.pageOpen = false := by
          cases hpv : env.pageOpen
          · rfl
          · exact absurd hpv hp
        rw [hp2] at h
        simp only [Bool.false_eq_true, if_false] at h
        injection h with h2
        rw [← h2]

/-- Witness: an empty run constructed at time 0 and finishing at time 7
records duration 7 - 0. -/
theorem c8_duration_since_construction_witness :
    resC8w.duration = 7 - 0 :=
  c8_duration_since_construction envC8w 0 7 [] resC8w rfl

/-- A result returned (not raised) by `_execute_single_action` under an
open page with working screenshots is successful and stores the
action-tagged screenshot path. -/
theorem executeSingleAction_ok_shape (env : Env) (i : Nat) (a : Action)
    (r : ActionResult) (hp : env.pageOpen = true)
    (hs : ∀ t, env.shotOk t = true)
    (h : executeSingleAction env i a = .ok r) :
    r.success = true ∧ r.screenshot = some (actionShot r.action) := by
  unfold executeSingleAction at h
  rcases hd : dispatchAction env i a with e | d <;> rw [hd] at h
  · simp at h
  · dsimp only [] at h
    rw [hp] at h
    simp only [if_true] at h
    have hts : takeScreenshot env ("action_" ++ a.type) =
        .ok ("screenshots/" ++ ("action_" ++ a.type) ++ ".png") := by
      unfold takeScreenshot
      rw [hs ("action_" ++ a.type)]
      rfl
    rw [hts] at h
    injection h with h2
    rw [← h2]
    exact ⟨rfl, rfl⟩

/-- Appending a successful, action-screenshot-carrying result and its
step screenshot preserves the loop invariant. -/
theorem goodState_snoc (st : LoopState) (r : ActionResult)
    (hst : goodState st)
    (hr : r.success = true ∧ r.screenshot = some (actionShot r.action)) :
    goodState { st with
                acts := st.acts ++ [r]
                shots := st.shots ++ [stepShot (st.acts.length + 1)] } := by
  obtain ⟨h1, h2⟩ := hst
  constructor
  · intro i ar har
    simp only [] at har
    rcases lt_trichotomy i st.acts.length with hlt | heq | hgt
    · rw [List.getElem?_append_left hlt] at har
      exact h1 i ar har
    · subst heq
      rw [List.getElem?_append_right (le_refl _)] at har
      simp at har
      rw [← har]
      exact hr
    · have hge : (st.acts ++ [r]).length ≤ i := by
        rw [List.length_append]
        simpa using hgt
      rw [List.getElem?_eq_none hge] at har
      cases har
  · show st.shots ++ [stepShot (st.acts.length + 1)] =
      (List.range (st.acts ++ [r]).length).map (fun k => stepShot (k + 1))
    rw [h2, List.length_append, List.length_singleton, List.range_succ,
        List.map_append]
    rfl

/-- Under an open page and reliable screenshots, the loop preserves the
invariant on every exit, normal or exceptional. -/
theorem execLoop_invariant (env : Env) (hp : env.pageOpen = true)
    (hs : ∀ t, env.shotOk t = true) :
    ∀ (acts : List Action) (i : Nat) (st : LoopState), goodState st →
      (∃ st2, execLoop env i st acts = .done st2 ∧ goodState st2) ∨
      (∃ st2 e, execLoop env i st acts = .raised st2 e ∧ goodState st2) := by
  intro acts
  induction acts with
  | nil =>
      intro i st hst
      exact Or.inl ⟨st, rfl, hst⟩
  | cons a rest ih =>
      intro i st hst
      rcases hsa : executeSingleAction env i a with e | r
      · refine Or.inr ⟨st, e, ?_, hst⟩
        simp only [execLoop, hsa]
      · obtain ⟨hsucc, hshot⟩ := executeSingleAction_ok_shape env i a r hp hs hsa
        have hts : takeScreenshot env ("step_" ++ toString (st.acts ++ [r]).length) =
            .ok ("screenshots/" ++ ("step_" ++ toString (st.acts ++ [r]).length) ++ ".png") := by
          unfold takeScreenshot
          rw [hs ("step_" ++ toString (st.acts ++ [r]).length)]
          rfl
        have hlen : (st.acts ++ [r]).length = st.acts.length + 1 := by
          rw [List.length_append, List.length_singleton]
        have hred : execLoop env i st (a :: rest) =
            execLoop env (i + 1)
              { st with
                acts := st.acts ++ [r]
                shots := st.shots ++ [stepShot (st.acts.length + 1)] } rest := by
          simp only [execLoop, hsa, hsucc, Bool.not_true, Bool.false_eq_true,
            if_false, hp, if_true, hts]
          rw [show stepShot (st.acts.length + 1) =
            "screenshots/" ++ ("step_" ++ toString (st.acts ++ [r]).length) ++ ".png" by
              rw [hlen]; rfl]
        rw [hred]
        exact ih (i + 1) _ (goodState_snoc st r hst ⟨hsucc, hshot⟩)

/-- C10. In a run over an open page whose screenshot captures succeed,
every successful recorded action carries the `action_{type}` screenshot
path in its own result, its `step_{index}` screenshot path is in the
run-level screenshots list, and the run-level list consists only of
step-tagged paths plus, on an exception, the `error_final` path - never
the per-action paths. -/
theorem c10_screenshot_policy (env : Env) (s n : Int) (acts : List Action)
    (r : ExecutionResult)
    (hok : executeActions env s n acts = .ok r)
    (hpage : env.pageOpen = true)
    (hshot : ∀ t, env.shotOk t = true) :
    (∀ (i : Nat) (ar : ActionResult), r.actions[i]? = some ar →
       ar.success = true →
       ar.screenshot = some (actionShot ar.action) ∧
       stepShot (i + 1) ∈ r.screenshots) ∧
    (∀ p ∈ r.screenshots, (∃ k : Nat, p = stepShot k) ∨ p = errorShot) := by
  have hgood0 : goodState initState := by
    constructor
    · intro i ar har
      simp [initState] at har
    · rfl
  have hout :
      (∃ st2, runLoop env acts = .done st2 ∧ goodState st2) ∨
      (∃ st2 e, runLoop env acts = .raised st2 e ∧ goodState st2) := by
    unfold runLoop
    cases hin : env.pageAliveInit with
    | true =>
        simp only [if_true]
        exact execLoop_invariant env hpage hshot acts 0 initState hgood0
    | false =>
        simp only [Bool.false_eq_true, if_false]
        cases hse : env.startError with
        | none => exact execLoop_invariant env hpage hshot acts 0 initState hgood0
        | some e => exact Or.inr ⟨initState, e, rfl, hgood0⟩
  rcases hout with ⟨st, hdone, hg1, hg2⟩ | ⟨st, e, hrai, hg1, hg2⟩
  · have hval : executeActions env s n acts =
        .ok { success := st.success, actions := st.acts, screenshots := st.shots,
              final_url := if env.pageOpen then some env.url else none,
              status := st.status, error := none, duration := n - s } := by
      unfold executeActions
      rw [hdone]
      rfl
    rw [hok] at hval
    have hr := Except.ok.inj hval
    subst hr
    dsimp only []
    constructor
    · intro i ar har hsucc2
      refine ⟨(hg1 i ar har).2, ?_⟩
      have hi : i < st.acts.length := by
        by_contra hni
        push_neg at hni
        rw [List.getElem?_eq_none hni] at har
        cases har
      rw [hg2]
      exact List.mem_map.mpr ⟨i, List.mem_range.mpr hi, rfl⟩
    · intro p hp2
      rw [hg2] at hp2
      obtain ⟨k, _, hpk⟩ := List.mem_map.mp hp2
      exact Or.inl ⟨k + 1, hpk.symm⟩
  · have hts : takeScreenshot env "error_final" = .ok errorShot := by
      unfold takeScreenshot
      rw [hshot "error_final"]
      rfl
    have hval : executeActions env s n acts =
        .ok { success := false, actions := st.acts,
              screenshots := st.shots ++ [errorShot], final_url := none,
              status := some "failed", error := some e, duration := n - s } := by
      unfold executeActions
      rw [hrai]
      unfold finishRun
      rw [hpage, hts]
      simp
    rw [hok] at hval
    have hr := Except.ok.inj hval
    subst hr
    dsimp only []
    constructor
    · intro i ar har hsucc2
      refine ⟨(hg1 i ar har).2, ?_⟩
      have hi : i < st.acts.length := by
        by_contra hni
        push_neg at hni
        rw [List.getElem?_eq_none hni] at har
        cases har
      refine List.mem_append_left _ ?_
      rw [hg2]
      exact List.mem_map.mpr ⟨i, List.mem_range.mpr hi, rfl⟩
    · intro p hp2
      rcases List.mem_append.mp hp2 with hin | hin
      · rw [hg2] at hin
        obtain ⟨k, _, hpk⟩ := List.mem_map.mp hin
        exact Or.inl ⟨k + 1, hpk.symm⟩
      · rw [List.mem_singleton] at hin
        exact Or.inr hin

/-- Witness: the one-action run under `envC10w` satisfies the screenshot
policy. -/
theorem c10_screenshot_policy_witness :
    (∀ (i : Nat) (ar : ActionResult), resC10w.actions[i]? = some ar →
       ar.success = true →
       ar.screenshot = some (actionShot ar.action) ∧
       stepShot (i + 1) ∈ resC10w.screenshots) ∧
    (∀ p ∈ resC10w.screenshots, (∃ k : Nat, p = stepShot k) ∨ p = errorShot) :=
  c10_screenshot_policy envC10w 0 1 [{ type := "submit" }] resC10w rfl rfl
    (fun _ => rfl)

end Browser
